import Mathlib

/-!
Shallow embedding of `apache_beam/metrics/cells.py`: metric cells
(`CounterCell`, `DistributionCell`, `GaugeCell`), snapshot value objects
(`DistributionData`, `GaugeData`), result views (`DistributionResult`),
and the three aggregators.  Python integers are modelled as `Int`,
wall-clock timestamps (Python floats) as `ℚ`, and Python `None` as
`Option.none`.  Cell-level mutation and object aliasing are modelled by
explicit stores (`CounterMem`, `DistMem`, `GaugeMem`).
-/

/-- `2**63 - 1`, the sentinel `min` of an empty distribution. -/
abbrev INT64_MAX : Int := 2 ^ 63 - 1

/-- `-2**63` (written `-self.min - 1` in the source), the sentinel `max`
of an empty distribution. -/
abbrev INT64_MIN : Int := -(2 ^ 63)

/-- The fields of `DistributionData`: `{sum, count, min, max}`.
Equality (`__eq__`) is structural on the four fields. -/
@[ext]
structure DistributionData where
  sum : Int
  count : Int
  min : Int
  max : Int
deriving DecidableEq, Repr

/-- Embeds `DistributionData.__init__(sum, count, min, max)`: when `count`
is truthy (nonzero) the fields are stored as given; otherwise the object
is forced to the sentinel no-data state `sum = count = 0`,
`min = 2**63 - 1`, `max = -2**63`. -/
def DistributionData.init (sum count min max : Int) : DistributionData :=
  if count ≠ 0 then ⟨sum, count, min, max⟩
  else ⟨0, 0, INT64_MAX, INT64_MIN⟩

/-- Embeds `DistributionData.get_cumulative`, which rebuilds the object
through the constructor: `DistributionData(self.sum, self.count, self.min,
self.max)`. -/
def DistributionData.get_cumulative (d : DistributionData) : DistributionData :=
  DistributionData.init d.sum d.count d.min d.max

/-- Embeds `DistributionData.combine(self, other)`.  `other` is
`Optional`: a `None` right operand returns `self`.  Otherwise the result
is built through the constructor from `sum = self.sum + other.sum`,
`count = self.count + other.count`,
`min = self.min if self.min < other.min else other.min`,
`max = self.max if self.max > other.max else other.max`. -/
def DistributionData.combine (self : DistributionData) (other : Option DistributionData) :
    DistributionData :=
  match other with
  | none => self
  | some o =>
      DistributionData.init (self.sum + o.sum) (self.count + o.count)
        (if self.min < o.min then self.min else o.min)
        (if self.max > o.max then self.max else o.max)

/-- Embeds `DistributionData.singleton(value)` =
`DistributionData(value, 1, value, value)`. -/
def DistributionData.singleton (value : Int) : DistributionData :=
  DistributionData.init value 1 value value

/-- Embeds `DistributionData.from_runner_api(proto)` =
`DistributionData(proto.sum, proto.count, proto.min, proto.max)`; the
proto's four numeric fields are passed positionally. -/
def DistributionData.from_runner_api (sum count min max : Int) : DistributionData :=
  DistributionData.init sum count min max

/-- Embeds `DistributionAggregator.identity_element()` =
`DistributionData(0, 0, 2**63 - 1, -2**63)`. -/
def DistributionAggregator.identity_element : DistributionData :=
  DistributionData.init 0 0 (2 ^ 63 - 1) (-(2 ^ 63))

/-- Embeds `DistributionAggregator.combine(x, y)` = `x.combine(y)`.
Both arguments are lifted to `Option` to reflect the dynamic behaviour:
invoking `.combine` on a `None` left operand raises (modelled as `none`);
a `None` right operand is handled inside `DistributionData.combine`. -/
def DistributionAggregator.combine (x y : Option DistributionData) :
    Option DistributionData :=
  match x with
  | none => none
  | some a => some (a.combine y)

/-- Embeds `DistributionCell._update(value)` acting on the cell's data:
`count += 1; sum += value; min = value if value < min; max = value if
value > max` (field mutation, not the normalising constructor). -/
def DistributionCell.update (d : DistributionData) (value : Int) : DistributionData :=
  { d with
    count := d.count + 1
    sum := d.sum + value
    min := if value < d.min then value else d.min
    max := if value > d.max then value else d.max }

/-- A fresh `DistributionCell` (data = the aggregator's identity element)
after a sequence of `update` calls. -/
def DistributionCell.applyUpdates (l : List Int) : DistributionData :=
  l.foldl DistributionCell.update DistributionAggregator.identity_element

/-- Embeds the `DistributionResult.min` property:
`self.data.min if self.data.count else None`. -/
def DistributionResult.min (d : DistributionData) : Option Int :=
  if d.count ≠ 0 then some d.min else none

/-- Embeds the `DistributionResult.max` property:
`self.data.max if self.data.count else None`. -/
def DistributionResult.max (d : DistributionData) : Option Int :=
  if d.count ≠ 0 then some d.max else none

/-- Embeds the `DistributionResult.mean` property: `None` when
`count == 0`, else the true division `sum / count` (a rational, standing
for the Python float). -/
def DistributionResult.mean (d : DistributionData) : Option ℚ :=
  if d.count = 0 then none else some ((d.sum : ℚ) / (d.count : ℚ))

/-- Embeds `CounterAggregator.identity_element()` = `0`. -/
def CounterAggregator.identity_element : Int := 0

/-- Embeds `CounterAggregator.combine(x, y)` = `int(x) + int(y)`. -/
def CounterAggregator.combine (x y : Int) : Int := x + y

/-- The fields of `GaugeData`: `{value, timestamp}`.  The stored value
may be Python `None` (the identity element carries `None`); the
timestamp is a wall-clock number.  Equality (`__eq__`) is structural. -/
structure GaugeData where
  value : Option Int
  timestamp : ℚ
deriving DecidableEq, Repr

/-- Embeds `GaugeData.__init__(value, timestamp=None)`: a missing
timestamp defaults to `0`. -/
def GaugeData.init (value : Option Int) (timestamp : Option ℚ) : GaugeData :=
  ⟨value, timestamp.getD 0⟩

/-- Embeds `GaugeData.get_cumulative` =
`GaugeData(self.value, timestamp=self.timestamp)` (a field-wise copy). -/
def GaugeData.get_cumulative (g : GaugeData) : GaugeData :=
  ⟨g.value, g.timestamp⟩

/-- Embeds `GaugeData.combine(self, other)`: `other` is `Optional`; a
`None` right operand returns `self`; otherwise the operand with the
strictly greater timestamp is returned (ties return `self`). -/
def GaugeData.combine (self : GaugeData) (other : Option GaugeData) : GaugeData :=
  match other with
  | none => self
  | some o => if o.timestamp > self.timestamp then o else self

/-- Embeds `GaugeAggregator.identity_element()` =
`GaugeData(None, timestamp=0)`. -/
def GaugeAggregator.identity_element : GaugeData :=
  GaugeData.init none (some 0)

/-- Embeds `GaugeAggregator.combine(x, y)` = `x.combine(y)`.  Both
arguments are lifted to `Option` to reflect the dynamic behaviour:
invoking `.combine` on a `None` left operand raises (modelled as `none`);
a `None` right operand is handled inside `GaugeData.combine`. -/
def GaugeAggregator.combine (x y : Option GaugeData) : Option GaugeData :=
  match x with
  | none => none
  | some a => some (a.combine y)

/-- A store of live `CounterCell`s: cell `r < next` holds the Python
`int` `vals r` as its `self.value`. -/
structure CounterMem where
  vals : Nat → Int
  next : Nat

/-- Embeds `CounterCell.__init__`: allocates a fresh cell whose value is
`CounterAggregator.identity_element()`, returning the new store and the
cell's reference. -/
def CounterMem.newCell (σ : CounterMem) : CounterMem × Nat :=
  (⟨fun j => if j = σ.next then CounterAggregator.identity_element else σ.vals j,
    σ.next + 1⟩, σ.next)

/-- Embeds `CounterCell.update(value)` (reached from `inc`/`dec`):
`self.value += value` on cell `r`. -/
def CounterMem.update (σ : CounterMem) (r : Nat) (n : Int) : CounterMem :=
  { σ with vals := fun j => if j = r then σ.vals j + n else σ.vals j }

/-- Embeds `CounterCell.combine(self, other)`:
`result = CounterCell(); result.inc(self.value + other.value)`; returns
the updated store and the result cell's reference. -/
def CounterMem.combine (σ : CounterMem) (r1 r2 : Nat) : CounterMem × Nat :=
  let p := σ.newCell
  (p.1.update p.2 (p.1.vals r1 + p.1.vals r2), p.2)

/-- Embeds `CounterCell.get_cumulative()`: reads `self.value`. -/
def CounterMem.get_cumulative (σ : CounterMem) (r : Nat) : Int :=
  σ.vals r

/-- A store of live `DistributionCell`s: cell `r < next` owns the
`DistributionData` `data r`.  (Distribution cells never share their data
object: construction, `reset` and `combine` each install a freshly
constructed `DistributionData`, so per-cell storage is faithful.) -/
structure DistMem where
  data : Nat → DistributionData
  next : Nat

/-- Embeds `DistributionCell.__init__`: allocates a fresh cell whose data
is `DistributionAggregator.identity_element()`. -/
def DistMem.newCell (σ : DistMem) : DistMem × Nat :=
  (⟨fun j => if j = σ.next then DistributionAggregator.identity_element else σ.data j,
    σ.next + 1⟩, σ.next)

/-- Embeds `DistributionCell.update(value)` on cell `r` (the
lock-protected `_update`). -/
def DistMem.update (σ : DistMem) (r : Nat) (v : Int) : DistMem :=
  { σ with data := fun j => if j = r then DistributionCell.update (σ.data r) v else σ.data j }

/-- Embeds `DistributionCell.combine(self, other)`:
`result = DistributionCell(); result.data = self.data.combine(other.data)`. -/
def DistMem.combine (σ : DistMem) (r1 r2 : Nat) : DistMem × Nat :=
  let p := σ.newCell
  ({ p.1 with
      data := fun j =>
        if j = p.2 then (p.1.data r1).combine (some (p.1.data r2)) else p.1.data j },
    p.2)

/-- Embeds `DistributionCell.get_cumulative()` =
`self.data.get_cumulative()`. -/
def DistMem.get_cumulative (σ : DistMem) (r : Nat) : DistributionData :=
  (σ.data r).get_cumulative

/-- A store of live `GaugeCell`s together with a heap of `GaugeData`
objects.  `GaugeData.combine` returns one of its operand *objects*, so a
gauge cell's `self.data` is a reference (`cellRef`) into the object heap
`objs`; aliasing between cells is representable. -/
structure GaugeMem where
  objs : Nat → GaugeData
  nextObj : Nat
  cellRef : Nat → Nat
  nextCell : Nat

/-- Embeds `GaugeCell.__init__`: allocates a fresh `GaugeData` object
equal to `GaugeAggregator.identity_element()` and a fresh cell referring
to it. -/
def GaugeMem.newCell (σ : GaugeMem) : GaugeMem × Nat :=
  (⟨fun j => if j = σ.nextObj then GaugeAggregator.identity_element else σ.objs j,
    σ.nextObj + 1,
    fun j => if j = σ.nextCell then σ.nextObj else σ.cellRef j,
    σ.nextCell + 1⟩, σ.nextCell)

/-- Embeds `GaugeCell.set(value)` / `update(value)` on cell `c`:
`self.data.value = int(value); self.data.timestamp = time.time()` —
in-place mutation of the referenced object.  The wall-clock reading
`time.time()` is passed in as `t`. -/
def GaugeMem.set (σ : GaugeMem) (c : Nat) (v : Int) (t : ℚ) : GaugeMem :=
  { σ with objs := fun j => if j = σ.cellRef c then ⟨some v, t⟩ else σ.objs j }

/-- Embeds `GaugeCell.combine(self, other)`:
`result = GaugeCell(); result.data = self.data.combine(other.data)`.
`GaugeData.combine` returns whichever operand object has the strictly
greater timestamp (ties: `self`'s), so the result cell's reference is set
to that existing object — no copy is made. -/
def GaugeMem.combine (σ : GaugeMem) (c1 c2 : Nat) : GaugeMem × Nat :=
  let p := σ.newCell
  let d1 := p.1.cellRef c1
  let d2 := p.1.cellRef c2
  let chosen := if (p.1.objs d2).timestamp > (p.1.objs d1).timestamp then d2 else d1
  ({ p.1 with cellRef := fun j => if j = p.2 then chosen else p.1.cellRef j }, p.2)

/-- Embeds `GaugeCell.get_cumulative()` = `self.data.get_cumulative()`
(a copy of the referenced object). -/
def GaugeMem.get_cumulative (σ : GaugeMem) (c : Nat) : GaugeData :=
  (σ.objs (σ.cellRef c)).get_cumulative

/-- The spec's distribution invariant: `count == 0` implies the sentinel
no-data bounds `min == INT64_MAX` and `max == INT64_MIN`. -/
def DistributionData.sentinelInvariant (d : DistributionData) : Prop :=
  d.count = 0 → d.min = INT64_MAX ∧ d.max = INT64_MIN

instance (d : DistributionData) : Decidable d.sentinelInvariant := by
  unfold DistributionData.sentinelInvariant
  infer_instance

/-- A well-formed distribution snapshot: a value reachable through the
public operations — nonnegative count, int64-bounded sentinel range, and
the sentinel no-data state when empty (in which case it equals the
aggregator's identity element). -/
def DistributionData.WF (d : DistributionData) : Prop :=
  0 ≤ d.count ∧ d.min ≤ INT64_MAX ∧ INT64_MIN ≤ d.max ∧
    (d.count = 0 → d = DistributionAggregator.identity_element)

instance (d : DistributionData) : Decidable d.WF := by
  unfold DistributionData.WF
  infer_instance

/-- The `DistributionData` values a `DistributionCell`'s `self.data` can
hold: the identity element at construction/reset, then images under cell
`update` and under `combine` with another cell's data. -/
inductive DistCellData : DistributionData → Prop
  | identity : DistCellData DistributionAggregator.identity_element
  | update (d : DistributionData) (v : Int) :
      DistCellData d → DistCellData (DistributionCell.update d v)
  | combine (d e : DistributionData) :
      DistCellData d → DistCellData e → DistCellData (d.combine (some e))

/-- A two-cell counter store: cell 0 holds 4, cell 1 holds 5. -/
def counterMemEx : CounterMem :=
  ⟨fun j => if j = 0 then 4 else if j = 1 then 5 else 0, 2⟩

/-- A two-cell distribution store: cell 0 holds the snapshot of one
update `3`, cell 1 is fresh. -/
def distMemEx : DistMem :=
  ⟨fun j => if j = 0 then DistributionData.singleton 3 else DistributionAggregator.identity_element, 2⟩

/-- A two-cell gauge store: cell 0 references object 0 = `(5, t=1)`,
cell 1 references object 1 = `(9, t=2)`. -/
def gaugeMemEx : GaugeMem :=
  ⟨fun j => if j = 0 then ⟨some 5, 1⟩ else ⟨some 9, 2⟩, 2,
   fun j => if j = 0 then 0 else 1, 2⟩

section Helpers

lemma if_lt_eq_min (x y : Int) : (if x < y then x else y) = min x y := by
  rcases lt_or_ge x y with h | h
  · rw [if_pos h, min_eq_left h.le]
  · rw [if_neg (not_lt.mpr h), min_eq_right h]

lemma if_gt_eq_max (x y : Int) : (if x > y then x else y) = max x y := by
  rcases lt_or_ge y x with h | h
  · rw [if_pos h, max_eq_left h.le]
  · rw [if_neg (not_lt.mpr h), max_eq_right h]

lemma identity_element_fields :
    DistributionAggregator.identity_element = ⟨0, 0, INT64_MAX, INT64_MIN⟩ := by
  decide

/-- `combine` of two well-formed snapshots computes the plain pointwise
algebra: the normalising constructor never deviates from it because an
empty combined count forces both operands to be the (sentinel) identity. -/
lemma combine_eq_pointwise (a b : DistributionData) (ha : a.WF) (hb : b.WF) :
    a.combine (some b) =
      ⟨a.sum + b.sum, a.count + b.count, min a.min b.min, max a.max b.max⟩ := by
  obtain ⟨hac, _, _, haid⟩ := ha
  obtain ⟨hbc, _, _, hbid⟩ := hb
  by_cases h : a.count + b.count = 0
  · have ha0 : a.count = 0 := by omega
    have hb0 : b.count = 0 := by omega
    rw [haid ha0, hbid hb0]
    decide
  · show DistributionData.init _ _ _ _ = _
    rw [DistributionData.init, if_pos h, if_lt_eq_min, if_gt_eq_max]

/-- Well-formedness is preserved by `combine`. -/
lemma WF_combine (a b : DistributionData) (ha : a.WF) (hb : b.WF) :
    (a.combine (some b)).WF := by
  rw [combine_eq_pointwise a b ha hb]
  obtain ⟨hac, hamin, hamax, haid⟩ := ha
  obtain ⟨hbc, hbmin, hbmax, hbid⟩ := hb
  unfold DistributionData.WF
  dsimp only
  refine ⟨by omega, le_trans (min_le_left _ _) hamin,
    le_trans hamax (le_max_left _ _), ?_⟩
  intro h0
  have ea : a = DistributionAggregator.identity_element := haid (by omega)
  have eb : b = DistributionAggregator.identity_element := hbid (by omega)
  subst ea
  subst eb
  decide

/-- Well-formedness is preserved by cell `update`. -/
lemma WF_update (d : DistributionData) (v : Int) (hd : d.WF) :
    (DistributionCell.update d v).WF := by
  obtain ⟨hc, hmin, hmax, _⟩ := hd
  unfold DistributionData.WF DistributionCell.update
  dsimp only
  refine ⟨by omega, ?_, ?_, fun h0 => absurd h0 (by omega)⟩
  · split_ifs with h
    · omega
    · exact hmin
  · split_ifs with h
    · omega
    · exact hmax

/-- Every `DistributionData` a cell can hold is well-formed. -/
lemma DistCellData.wf (d : DistributionData) (hd : DistCellData d) : d.WF := by
  induction hd with
  | identity => decide
  | update d v _ ih => exact WF_update d v ih
  | combine d e _ _ ihd ihe => exact WF_combine d e ihd ihe

/-- Combining the identity element on the left is neutral on well-formed
snapshots. -/
lemma combine_identity_left (x : DistributionData) (hx : x.WF) :
    DistributionData.combine DistributionAggregator.identity_element (some x) = x := by
  rw [combine_eq_pointwise _ x (by decide) hx]
  obtain ⟨hc, hmin, hmax, hid⟩ := hx
  ext
  all_goals simp only [identity_element_fields]
  · exact zero_add _
  · exact zero_add _
  · exact min_eq_right hmin
  · exact max_eq_right hmax

/-- Combining the identity element on the right is neutral on well-formed
snapshots. -/
lemma combine_identity_right (x : DistributionData) (hx : x.WF) :
    x.combine (some DistributionAggregator.identity_element) = x := by
  rw [combine_eq_pointwise x _ hx (by decide)]
  obtain ⟨hc, hmin, hmax, hid⟩ := hx
  ext
  all_goals simp only [identity_element_fields]
  · exact add_zero _
  · exact add_zero _
  · exact min_eq_left hmin
  · exact max_eq_left hmax

end Helpers

/-- **C1** (counterexample): gauge `combine(identity, x)` is not `x` for
the snapshot `x = GaugeData(5)` (default timestamp `0`): the identity's
timestamp `0` is not strictly smaller, so the identity itself — whose
value is `None`, not `5` — is returned. -/
theorem c1_identity_counterexample :
    GaugeAggregator.combine (some GaugeAggregator.identity_element)
        (some (GaugeData.init (some 5) none)) ≠
      some (GaugeData.init (some 5) none) := by
  decide

/-- **C1** (amended): combining the identity element is neutral on both
sides for Counter, and for Distribution on well-formed snapshots; for
Gauge, `combine(x, identity) == x` holds whenever `x.timestamp ≥ 0`, but
`combine(identity, x) == x` only holds when `x.timestamp > 0` — at
timestamp `0` (equal to the identity's) the left operand, the identity,
is returned instead of `x`. -/
theorem c1_identity_neutral :
    (∀ x : Int,
        CounterAggregator.combine CounterAggregator.identity_element x = x ∧
        CounterAggregator.combine x CounterAggregator.identity_element = x) ∧
    (∀ x : DistributionData, x.WF →
        DistributionData.combine DistributionAggregator.identity_element (some x) = x ∧
        x.combine (some DistributionAggregator.identity_element) = x) ∧
    (∀ x : GaugeData,
        (0 ≤ x.timestamp →
          x.combine (some GaugeAggregator.identity_element) = x) ∧
        (0 < x.timestamp →
          GaugeData.combine GaugeAggregator.identity_element (some x) = x)) := by
  refine ⟨fun x => ⟨zero_add x, add_zero x⟩,
    fun x hx => ⟨combine_identity_left x hx, combine_identity_right x hx⟩,
    fun x => ⟨fun hts => ?_, fun hts => ?_⟩⟩
  · show (if GaugeAggregator.identity_element.timestamp > x.timestamp
        then GaugeAggregator.identity_element else x) = x
    have ht : GaugeAggregator.identity_element.timestamp = 0 := rfl
    rw [ht, if_neg (not_lt.mpr hts)]
  · show (if x.timestamp > GaugeAggregator.identity_element.timestamp
        then x else GaugeAggregator.identity_element) = x
    have ht : GaugeAggregator.identity_element.timestamp = 0 := rfl
    rw [ht, if_pos hts]

/-- Witness for C1 at concrete inputs. -/
theorem c1_identity_neutral_witness :
    DistributionData.combine DistributionAggregator.identity_element
        (some (DistributionData.singleton 4)) = DistributionData.singleton 4 ∧
    GaugeData.combine (GaugeData.init (some 7) (some 3))
        (some GaugeAggregator.identity_element) = GaugeData.init (some 7) (some 3) :=
  ⟨(c1_identity_neutral.2.1 _ (by decide)).1,
   (c1_identity_neutral.2.2 _).1 (by norm_num [GaugeData.init])⟩

/-- **C2**: gauge combine returns the right operand exactly on a strictly
greater right timestamp, and the left operand when the right timestamp is
less than or equal (in particular on ties). -/
theorem c2_gauge_combine_lastwriterwins (x y : GaugeData) :
    (x.timestamp < y.timestamp → x.combine (some y) = y) ∧
    (y.timestamp ≤ x.timestamp → x.combine (some y) = x) := by
  constructor
  · intro h
    show (if y.timestamp > x.timestamp then y else x) = y
    rw [if_pos h]
  · intro h
    show (if y.timestamp > x.timestamp then y else x) = x
    rw [if_neg (not_lt.mpr h)]

/-- Witness for C2 at concrete inputs: a later right operand wins; a tie
returns the left operand. -/
theorem c2_gauge_combine_lastwriterwins_witness :
    GaugeData.combine ⟨some 1, 0⟩ (some ⟨some 2, 1⟩) = ⟨some 2, 1⟩ ∧
    GaugeData.combine ⟨some 1, 1⟩ (some ⟨some 2, 1⟩) = ⟨some 1, 1⟩ :=
  ⟨(c2_gauge_combine_lastwriterwins _ _).1 (by norm_num),
   (c2_gauge_combine_lastwriterwins _ _).2 (by norm_num)⟩

/-- **C3**: distribution combine is associative on well-formed snapshots
and commutative unconditionally; the combine computes the sum of sums,
the sum of counts, the min of mins and the max of maxes. -/
theorem c3_distribution_combine_assoc_comm :
    (∀ a b c : DistributionData, a.WF → b.WF → c.WF →
        (a.combine (some b)).combine (some c) =
          a.combine (some (b.combine (some c)))) ∧
    (∀ a b : DistributionData, a.combine (some b) = b.combine (some a)) := by
  constructor
  · intro a b c ha hb hc
    have h1 := combine_eq_pointwise (a.combine (some b)) c (WF_combine a b ha hb) hc
    have h2 := combine_eq_pointwise a (b.combine (some c)) ha (WF_combine b c hb hc)
    rw [h1, h2, combine_eq_pointwise a b ha hb, combine_eq_pointwise b c hb hc]
    dsimp only
    ext
    · exact add_assoc _ _ _
    · exact add_assoc _ _ _
    · exact min_assoc _ _ _
    · exact max_assoc _ _ _
  · intro a b
    show DistributionData.init _ _ _ _ = DistributionData.init _ _ _ _
    rw [if_lt_eq_min, if_lt_eq_min, if_gt_eq_max, if_gt_eq_max,
      add_comm a.sum, add_comm a.count, min_comm, max_comm]

/-- Witness for C3: associativity at three concrete singleton snapshots. -/
theorem c3_distribution_combine_assoc_comm_witness :
    ((DistributionData.singleton 1).combine (some (DistributionData.singleton 2))).combine
        (some (DistributionData.singleton 3)) =
      (DistributionData.singleton 1).combine
        (some ((DistributionData.singleton 2).combine (some (DistributionData.singleton 3)))) :=
  c3_distribution_combine_assoc_comm.1 _ _ _ (by decide) (by decide) (by decide)

/-- **C4**: every `DistributionData` produced by the constructor, and
every data value a cell can hold (identity at construction/reset, cell
updates, combines), satisfies the sentinel invariant: `count == 0`
implies `min == INT64_MAX` and `max == INT64_MIN`. -/
theorem c4_sentinel_invariant :
    (∀ s c mn mx : Int, (DistributionData.init s c mn mx).sentinelInvariant) ∧
    (∀ d : DistributionData, DistCellData d → d.sentinelInvariant) := by
  constructor
  · intro s c mn mx
    unfold DistributionData.init DistributionData.sentinelInvariant
    split_ifs with h
    · exact fun h0 => absurd h0 h
    · exact fun _ => ⟨rfl, rfl⟩
  · intro d hd h0
    have hw := DistCellData.wf d hd
    rw [hw.2.2.2 h0]
    exact ⟨rfl, rfl⟩

/-- Witness for C4: a constructed value and the identity element. -/
theorem c4_sentinel_invariant_witness :
    (DistributionData.init 3 2 1 5).sentinelInvariant ∧
    DistributionAggregator.identity_element.sentinelInvariant :=
  ⟨c4_sentinel_invariant.1 3 2 1 5,
   c4_sentinel_invariant.2 _ DistCellData.identity⟩

lemma update_min_le (d : DistributionData) (v : Int) :
    (DistributionCell.update d v).min ≤ d.min ∧ (DistributionCell.update d v).min ≤ v := by
  unfold DistributionCell.update
  dsimp only
  constructor <;> split_ifs with h <;> omega

lemma update_max_ge (d : DistributionData) (v : Int) :
    d.max ≤ (DistributionCell.update d v).max ∧ v ≤ (DistributionCell.update d v).max := by
  unfold DistributionCell.update
  dsimp only
  constructor <;> split_ifs with h <;> omega

lemma foldl_update_min_le (l : List Int) (d : DistributionData) :
    (l.foldl DistributionCell.update d).min ≤ d.min := by
  induction l generalizing d with
  | nil => exact le_refl _
  | cons w l ih =>
      exact le_trans (ih (DistributionCell.update d w)) (update_min_le d w).1

lemma foldl_update_max_ge (l : List Int) (d : DistributionData) :
    d.max ≤ (l.foldl DistributionCell.update d).max := by
  induction l generalizing d with
  | nil => exact le_refl _
  | cons w l ih =>
      exact le_trans (update_max_ge d w).1 (ih (DistributionCell.update d w))

lemma foldl_update_mem_min (l : List Int) (d : DistributionData) (v : Int) (hv : v ∈ l) :
    (l.foldl DistributionCell.update d).min ≤ v := by
  induction l generalizing d with
  | nil => cases hv
  | cons w l ih =>
      rcases List.mem_cons.mp hv with h | h
      · subst h
        exact le_trans (foldl_update_min_le l _) (update_min_le d v).2
      · exact ih _ h

lemma foldl_update_mem_max (l : List Int) (d : DistributionData) (v : Int) (hv : v ∈ l) :
    v ≤ (l.foldl DistributionCell.update d).max := by
  induction l generalizing d with
  | nil => cases hv
  | cons w l ih =>
      rcases List.mem_cons.mp hv with h | h
      · subst h
        exact le_trans (update_max_ge d v).2 (foldl_update_max_ge l _)
      · exact ih _ h

/-- **C5**: the result view of an empty distribution reports `min`,
`max` and `mean` as `None`; with positive count, `mean` is the true
division `sum / count`; and every value passed to a cell's `update` lies
within the resulting snapshot's `[min, max]`. -/
theorem c5_result_view :
    (∀ d : DistributionData, d.count = 0 →
        DistributionResult.min d = none ∧ DistributionResult.max d = none ∧
        DistributionResult.mean d = none) ∧
    (∀ d : DistributionData, 0 < d.count →
        DistributionResult.mean d = some ((d.sum : ℚ) / (d.count : ℚ))) ∧
    (∀ (l : List Int) (v : Int), v ∈ l →
        (DistributionCell.applyUpdates l).min ≤ v ∧
          v ≤ (DistributionCell.applyUpdates l).max) := by
  refine ⟨fun d h0 => ⟨?_, ?_, ?_⟩, fun d hpos => ?_, fun l v hv => ?_⟩
  · unfold DistributionResult.min
    rw [if_neg (fun h => h h0)]
  · unfold DistributionResult.max
    rw [if_neg (fun h => h h0)]
  · unfold DistributionResult.mean
    rw [if_pos h0]
  · unfold DistributionResult.mean
    rw [if_neg (by omega)]
  · exact ⟨foldl_update_mem_min l _ v hv, foldl_update_mem_max l _ v hv⟩

/-- Witness for C5: the empty snapshot, a one-sample snapshot, and a
one-update cell trace. -/
theorem c5_result_view_witness :
    (DistributionResult.min DistributionAggregator.identity_element = none ∧
     DistributionResult.max DistributionAggregator.identity_element = none ∧
     DistributionResult.mean DistributionAggregator.identity_element = none) ∧
    DistributionResult.mean (DistributionData.singleton 4) =
      some (((DistributionData.singleton 4).sum : ℚ) /
        ((DistributionData.singleton 4).count : ℚ)) ∧
    ((DistributionCell.applyUpdates [3]).min ≤ 3 ∧
      (3 : Int) ≤ (DistributionCell.applyUpdates [3]).max) :=
  ⟨c5_result_view.1 _ (by decide), c5_result_view.2.1 _ (by decide),
   c5_result_view.2.2 [3] 3 (by decide)⟩

/-- **C7** (counterexample): a `None` *left* operand is not returned
unchanged — `combine` is a method of the left operand, and invoking it on
`None` raises instead of yielding the right operand. -/
theorem c7_none_operand_counterexample :
    DistributionAggregator.combine none (some DistributionAggregator.identity_element) ≠
        some DistributionAggregator.identity_element ∧
    GaugeAggregator.combine none (some GaugeAggregator.identity_element) ≠
        some GaugeAggregator.identity_element := by
  constructor <;> exact fun h => Option.noConfusion h

/-- **C7** (amended): in Distribution and Gauge snapshot combine, a
missing snapshot is treated as `None` only in the *right* operand
(`other`); when `other` is `None` the left operand is returned
unchanged. -/
theorem c7_none_right_neutral :
    (∀ a : DistributionData, a.combine none = a ∧
        DistributionAggregator.combine (some a) none = some a) ∧
    (∀ a : GaugeData, a.combine none = a ∧
        GaugeAggregator.combine (some a) none = some a) :=
  ⟨fun _ => ⟨rfl, rfl⟩, fun _ => ⟨rfl, rfl⟩⟩

/-- **C8** (Scenario B): a fresh `DistributionCell` updated with
`3, -1, 7, 7` has cumulative snapshot `{sum: 16, count: 4, min: -1,
max: 7}` and result-view mean `4`. -/
theorem c8_scenario_b :
    (DistributionCell.applyUpdates [3, -1, 7, 7]).get_cumulative =
      DistributionData.init 16 4 (-1) 7 ∧
    DistributionResult.mean (DistributionCell.applyUpdates [3, -1, 7, 7]) = some 4 := by
  constructor
  · decide
  · have h : DistributionCell.applyUpdates [3, -1, 7, 7] = ⟨16, 4, -1, 7⟩ := by decide
    rw [h]
    norm_num [DistributionResult.mean]

/-- **C10**: constructing a `DistributionData` with `count == 0` discards
the supplied `sum`, `min` and `max`: the result is always the sentinel
identity snapshot, in particular for `from_runner_api` on a proto with
`count == 0` and arbitrary (e.g. nonzero) `sum`. -/
theorem c10_count_zero_discards_fields (s mn mx : Int) :
    DistributionData.init s 0 mn mx = DistributionAggregator.identity_element ∧
    DistributionData.from_runner_api s 0 mn mx = DistributionAggregator.identity_element :=
  ⟨rfl, rfl⟩

lemma GaugeData.get_cumulative_eq (g : GaugeData) : g.get_cumulative = g := rfl

/-- **C6**: for each metric kind, cell `combine` returns a fresh cell
whose observable value is the combined value of the two inputs (for
counters, the sum), and the call leaves both input cells' stored state
unchanged. -/
theorem c6_combine_returns_fresh_cell :
    (∀ (σ : CounterMem) (r1 r2 : Nat), r1 < σ.next → r2 < σ.next →
        (σ.combine r1 r2).1.vals r1 = σ.vals r1 ∧
        (σ.combine r1 r2).1.vals r2 = σ.vals r2 ∧
        (σ.combine r1 r2).1.get_cumulative (σ.combine r1 r2).2 =
          CounterAggregator.combine (σ.get_cumulative r1) (σ.get_cumulative r2)) ∧
    (∀ (σ : DistMem) (r1 r2 : Nat), r1 < σ.next → r2 < σ.next →
        (σ.combine r1 r2).1.data r1 = σ.data r1 ∧
        (σ.combine r1 r2).1.data r2 = σ.data r2 ∧
        (σ.combine r1 r2).1.data (σ.combine r1 r2).2 =
          (σ.data r1).combine (some (σ.data r2))) ∧
    (∀ (σ : GaugeMem) (c1 c2 : Nat), c1 < σ.nextCell → c2 < σ.nextCell →
        σ.cellRef c1 < σ.nextObj → σ.cellRef c2 < σ.nextObj →
        (σ.combine c1 c2).1.get_cumulative c1 = σ.get_cumulative c1 ∧
        (σ.combine c1 c2).1.get_cumulative c2 = σ.get_cumulative c2 ∧
        (σ.combine c1 c2).1.get_cumulative (σ.combine c1 c2).2 =
          (σ.objs (σ.cellRef c1)).combine (some (σ.objs (σ.cellRef c2)))) := by
  refine ⟨fun σ r1 r2 h1 h2 => ?_, fun σ r1 r2 h1 h2 => ?_,
    fun σ c1 c2 h1 h2 hr1 hr2 => ?_⟩
  · have e1 : r1 ≠ σ.next := Nat.ne_of_lt h1
    have e2 : r2 ≠ σ.next := Nat.ne_of_lt h2
    refine ⟨?_, ?_, ?_⟩ <;>
      simp [CounterMem.combine, CounterMem.newCell, CounterMem.update,
        CounterMem.get_cumulative, CounterAggregator.identity_element,
        CounterAggregator.combine, e1, e2]
  · have e1 : r1 ≠ σ.next := Nat.ne_of_lt h1
    have e2 : r2 ≠ σ.next := Nat.ne_of_lt h2
    refine ⟨?_, ?_, ?_⟩ <;>
      simp [DistMem.combine, DistMem.newCell, DistMem.get_cumulative, e1, e2]
  · have e1 : c1 ≠ σ.nextCell := Nat.ne_of_lt h1
    have e2 : c2 ≠ σ.nextCell := Nat.ne_of_lt h2
    have f1 : σ.cellRef c1 ≠ σ.nextObj := Nat.ne_of_lt hr1
    have f2 : σ.cellRef c2 ≠ σ.nextObj := Nat.ne_of_lt hr2
    refine ⟨?_, ?_, ?_⟩ <;>
      simp [GaugeMem.combine, GaugeMem.newCell, GaugeMem.get_cumulative,
        GaugeData.get_cumulative_eq, GaugeData.combine, e1, e2, f1, f2]
    split_ifs with h
    · simp [f2]
    · simp [f1]

/-- Witness for C6 on three concrete two-cell stores. -/
theorem c6_combine_returns_fresh_cell_witness :
    ((counterMemEx.combine 0 1).1.vals 0 = counterMemEx.vals 0 ∧
     (counterMemEx.combine 0 1).1.vals 1 = counterMemEx.vals 1 ∧
     (counterMemEx.combine 0 1).1.get_cumulative (counterMemEx.combine 0 1).2 =
       CounterAggregator.combine (counterMemEx.get_cumulative 0)
         (counterMemEx.get_cumulative 1)) ∧
    ((distMemEx.combine 0 1).1.data 0 = distMemEx.data 0 ∧
     (distMemEx.combine 0 1).1.data 1 = distMemEx.data 1 ∧
     (distMemEx.combine 0 1).1.data (distMemEx.combine 0 1).2 =
       (distMemEx.data 0).combine (some (distMemEx.data 1))) ∧
    ((gaugeMemEx.combine 0 1).1.get_cumulative 0 = gaugeMemEx.get_cumulative 0 ∧
     (gaugeMemEx.combine 0 1).1.get_cumulative 1 = gaugeMemEx.get_cumulative 1 ∧
     (gaugeMemEx.combine 0 1).1.get_cumulative (gaugeMemEx.combine 0 1).2 =
       (gaugeMemEx.objs (gaugeMemEx.cellRef 0)).combine
         (some (gaugeMemEx.objs (gaugeMemEx.cellRef 1)))) :=
  ⟨c6_combine_returns_fresh_cell.1 counterMemEx 0 1 (by decide) (by decide),
   c6_combine_returns_fresh_cell.2.1 distMemEx 0 1 (by decide) (by decide),
   c6_combine_returns_fresh_cell.2.2 gaugeMemEx 0 1 (by decide) (by decide)
     (by decide) (by decide)⟩

/-- **C9**: gauge cell `combine` installs one of the two *existing*
`GaugeData` objects as the new cell's data (no copy), so a subsequent
`set` on the combined cell writes through to the data observed by
`get_cumulative` on that input cell: some input cell now reports the
newly set `(value, timestamp)`, and (when that pair differs from the old
readings) an input cell's observation has changed. -/
theorem c9_gauge_combine_shares_data (σ : GaugeMem) (c1 c2 : Nat) (v : Int) (t : ℚ)
    (h1 : c1 < σ.nextCell) (h2 : c2 < σ.nextCell)
    (hr1 : σ.cellRef c1 < σ.nextObj) (hr2 : σ.cellRef c2 < σ.nextObj)
    (hne1 : (⟨some v, t⟩ : GaugeData) ≠ σ.get_cumulative c1)
    (hne2 : (⟨some v, t⟩ : GaugeData) ≠ σ.get_cumulative c2) :
    (((σ.combine c1 c2).1.set (σ.combine c1 c2).2 v t).get_cumulative c1 = ⟨some v, t⟩ ∨
     ((σ.combine c1 c2).1.set (σ.combine c1 c2).2 v t).get_cumulative c2 = ⟨some v, t⟩) ∧
    (((σ.combine c1 c2).1.set (σ.combine c1 c2).2 v t).get_cumulative c1 ≠
        σ.get_cumulative c1 ∨
     ((σ.combine c1 c2).1.set (σ.combine c1 c2).2 v t).get_cumulative c2 ≠
        σ.get_cumulative c2) := by
  have e1 : c1 ≠ σ.nextCell := Nat.ne_of_lt h1
  have e2 : c2 ≠ σ.nextCell := Nat.ne_of_lt h2
  have f1 : σ.cellRef c1 ≠ σ.nextObj := Nat.ne_of_lt hr1
  have f2 : σ.cellRef c2 ≠ σ.nextObj := Nat.ne_of_lt hr2
  have hne1a : (⟨some v, t⟩ : GaugeData) ≠ σ.objs (σ.cellRef c1) := hne1
  have hne2a : (⟨some v, t⟩ : GaugeData) ≠ σ.objs (σ.cellRef c2) := hne2
  by_cases h : (σ.objs (σ.cellRef c2)).timestamp > (σ.objs (σ.cellRef c1)).timestamp
  · constructor
    · right
      simp [GaugeMem.combine, GaugeMem.newCell, GaugeMem.set, GaugeMem.get_cumulative,
        GaugeData.get_cumulative_eq, e1, e2, f1, f2, h]
    · right
      simp [GaugeMem.combine, GaugeMem.newCell, GaugeMem.set, GaugeMem.get_cumulative,
        GaugeData.get_cumulative_eq, e1, e2, f1, f2, h]
      exact fun hh => hne2a hh
  · constructor
    · left
      simp [GaugeMem.combine, GaugeMem.newCell, GaugeMem.set, GaugeMem.get_cumulative,
        GaugeData.get_cumulative_eq, e1, e2, f1, f2, h]
    · left
      simp [GaugeMem.combine, GaugeMem.newCell, GaugeMem.set, GaugeMem.get_cumulative,
        GaugeData.get_cumulative_eq, e1, e2, f1, f2, h]
      exact fun hh => hne1a hh

/-- Witness for C9: combining the two cells of `gaugeMemEx` (cell 1's
timestamp is later, so its object is shared) and then setting `(7, t=3)`
on the combined cell changes what cell 1 reports. -/
theorem c9_gauge_combine_shares_data_witness :
    (((gaugeMemEx.combine 0 1).1.set (gaugeMemEx.combine 0 1).2 7 3).get_cumulative 0 =
        ⟨some 7, 3⟩ ∨
     ((gaugeMemEx.combine 0 1).1.set (gaugeMemEx.combine 0 1).2 7 3).get_cumulative 1 =
        ⟨some 7, 3⟩) ∧
    (((gaugeMemEx.combine 0 1).1.set (gaugeMemEx.combine 0 1).2 7 3).get_cumulative 0 ≠
        gaugeMemEx.get_cumulative 0 ∨
     ((gaugeMemEx.combine 0 1).1.set (gaugeMemEx.combine 0 1).2 7 3).get_cumulative 1 ≠
        gaugeMemEx.get_cumulative 1) :=
  c9_gauge_combine_shares_data gaugeMemEx 0 1 7 3 (by decide) (by decide)
    (by decide) (by decide) (by decide) (by decide)
